import Mathlib

/-!
Verification of the AI-orchestration and resilience layer of the taskeasy
web client, shallowly embedded from `src/services/geminiService.ts`
(the current, two-provider version of the file), `src/unnamed/part_005`
(the current `App.tsx`) and `src/types.ts`.

JavaScript conventions captured by the embedding:
* a thrown value is modelled by `JsError`; numeric fields that may be
  absent are `Option Int` (JS `undefined`), and JS falsiness of the
  number `0` is folded into the status-extraction function;
* `a || b` on strings is `jsStrOr` (empty string is falsy);
* `a || b` where `a` is an array is the identity on present arrays,
  because every JS array (including `[]`) is truthy;
* asynchronous operations are functions from the attempt index to an
  `Except JsError` outcome, network responses are explicit oracle
  arguments, and the executor is instrumented to record the number of
  invocations and the backoff sleeps it performs.
-/

namespace TaskEasy

/-- String-literal constants of the source, named so statements can refer
to them. -/
def emptyS : String := ""

def kResourceExhausted : String := "RESOURCE_EXHAUSTED"

def k429 : String := "429"

def kPermissionDenied : String := "PERMISSION_DENIED"

def kInvalidArgument : String := "INVALID_ARGUMENT"

/-- Translated message thrown on 429 / quota exhaustion. -/
def rateLimitMsg : String := "API 调用频率受限 (429)。配额已用尽或请求过快，请稍后重试。"

/-- Translated message thrown on 401/403 / permission denial. -/
def unauthMsg : String := "API Key 无效或无权限 (401/403)。请检查设置中的 Key 是否正确。"

/-- Translated message thrown on status 500 and above. -/
def serverMsg : String := "AI 服务端暂时不可用 (5xx)。请稍后重试。"

/-- Message thrown when the loop ends with no error captured. -/
def unknownMsg : String := "Unknown error occurred during API call."

/-- Substring test, modelling JS `String.prototype.includes`. -/
def strContains (s pat : String) : Bool :=
  decide (List.IsInfix pat.toList s.toList)

/-- JS `a || b` on strings: `a` if non-empty (truthy), else `b`. -/
def jsStrOr (a b : String) : String :=
  if a = emptyS then b else a

/-- A thrown JS value as inspected by `retry` in geminiService.ts: the
`status`, `response.status` and `code` fields (absent = `none`),
the `message` field, and the `JSON.stringify` rendering used when
`message` is falsy. -/
structure JsError where
  status : Option Int
  responseStatus : Option Int
  code : Option Int
  message : String
  serialized : String
deriving DecidableEq

/-- JS truthiness filter on an optional number: the number `0` is falsy
and is skipped by the `||` chain. -/
def jsTruthyNum : Option Int → Option Int
  | some n => if n = 0 then none else some n
  | none => none

/-- `error?.status || error?.response?.status || error?.code`
(geminiService.ts line 586, and again at line 604). -/
def getStatus (e : JsError) : Option Int :=
  match jsTruthyNum e.status with
  | some n => some n
  | none =>
    match jsTruthyNum e.responseStatus with
    | some n => some n
    | none => jsTruthyNum e.code

/-- `lastError.message || JSON.stringify(lastError)` (line 603). -/
def msgOf (e : JsError) : String :=
  jsStrOr e.message e.serialized

/-- The loop-break condition of `retry` (line 589):
`status && status >= 400 && status < 500 && status !== 429`. -/
def isNonRetryable (e : JsError) : Bool :=
  match getStatus e with
  | none => false
  | some s => if 400 ≤ s ∧ s < 500 ∧ s ≠ 429 then true else false

/-- Rate-limit check of the terminal classification (line 606). -/
def isRateLimitErr (e : JsError) : Bool :=
  getStatus e == some 429 || strContains (msgOf e) kResourceExhausted
    || strContains (msgOf e) k429

/-- Unauthorized check of the terminal classification (line 609). -/
def isUnauthErr (e : JsError) : Bool :=
  getStatus e == some 401 || getStatus e == some 403
    || strContains (msgOf e) kPermissionDenied

/-- Server-error check of the terminal classification (line 612). -/
def isServerErr (e : JsError) : Bool :=
  match getStatus e with
  | none => false
  | some s => if 500 ≤ s then true else false

/-- What `retry` ultimately does: return a value, throw a freshly built
translated `Error` (carrying only a message), or rethrow the original
error object unchanged. -/
inductive RetryResult (T : Type) where
  | success : T → RetryResult T
  | classified : String → RetryResult T
  | rethrown : JsError → RetryResult T
deriving DecidableEq

/-- The error translation after the loop (lines 602-617); `none` models
the defensive no-error-captured branch (line 617). -/
def classifyLast (T : Type) : Option JsError → RetryResult T
  | none => RetryResult.classified unknownMsg
  | some e =>
    if isRateLimitErr e then RetryResult.classified rateLimitMsg
    else if isUnauthErr e then RetryResult.classified unauthMsg
    else if isServerErr e then RetryResult.classified serverMsg
    else RetryResult.rethrown e

/-- The `for` loop of `retry` (lines 581-599), instrumented.  `i` is the
zero-based attempt index about to run, the second `Nat` argument is the
number of loop iterations still allowed (`retries - i` in the source).
Returns the number of invocations of `fn`, the list of backoff sleeps
performed (in milliseconds, in order), and either the success value or
the final `lastError` (`none` when the loop body never ran). -/
def retryLoop (T : Type) (outcomes : Nat → Except JsError T) (d : Nat) :
    Nat → Nat → Nat × List Nat × (T ⊕ Option JsError)
  | _, 0 => (0, [], Sum.inr none)
  | i, rem + 1 =>
    match outcomes i with
    | Except.ok t => (1, [], Sum.inl t)
    | Except.error e =>
      if isNonRetryable e then (1, [], Sum.inr (some e))
      else if rem = 0 then (1, [], Sum.inr (some e))
      else
        ((retryLoop T outcomes d (i + 1) rem).1 + 1,
         d * 2 ^ i :: (retryLoop T outcomes d (i + 1) rem).2.1,
         match (retryLoop T outcomes d (i + 1) rem).2.2 with
         | Sum.inr none => Sum.inr (some e)
         | x => x)

/-- Instrumented run of one `retry(fn, retries, baseDelay)` call. -/
structure RetryTrace (T : Type) where
  calls : Nat
  sleeps : List Nat
  result : RetryResult T
deriving DecidableEq

/-- `retry` (geminiService.ts lines 574-618): run the loop from attempt
0, then apply the terminal error translation unless a value was
returned.  The source defaults are `retries = 3`, `baseDelay = 1000`. -/
def retry (T : Type) (outcomes : Nat → Except JsError T)
    (retries baseDelay : Nat) : RetryTrace T :=
  { calls := (retryLoop T outcomes baseDelay 0 retries).1
    sleeps := (retryLoop T outcomes baseDelay 0 retries).2.1
    result :=
      match (retryLoop T outcomes baseDelay 0 retries).2.2 with
      | Sum.inl t => RetryResult.success t
      | Sum.inr le => classifyLast T le }

/-- Source default for the `retries` parameter of `retry`. -/
def defaultRetries : Nat := 3

/-- Source default for the `baseDelay` parameter of `retry`. -/
def defaultBaseDelay : Nat := 1000

/-- The exponential backoff schedule: sleeps for attempts `i`,
`i+1`, ..., `i+n-1` (each followed by a further attempt). -/
def delaySched (d : Nat) : Nat → Nat → List Nat
  | _, 0 => []
  | i, n + 1 => d * 2 ^ i :: delaySched d (i + 1) n

theorem delaySched_eq_map (d : Nat) :
    ∀ n i, delaySched d i n = (List.range n).map (fun k => d * 2 ^ (i + k)) := by
  intro n
  induction n with
  | zero => intro i; simp [delaySched]
  | succ m ih =>
    intro i
    rw [List.range_succ_eq_map]
    simp only [delaySched, List.map_cons, List.map_map]
    congr 1
    rw [ih (i + 1)]
    apply List.map_congr_left
    intro k _
    simp only [Function.comp_apply]
    congr 2
    omega

theorem retry_calls_eq (T : Type) (outcomes : Nat → Except JsError T)
    (retries d : Nat) :
    (retry T outcomes retries d).calls = (retryLoop T outcomes d 0 retries).1 := rfl

theorem retry_sleeps_eq (T : Type) (outcomes : Nat → Except JsError T)
    (retries d : Nat) :
    (retry T outcomes retries d).sleeps = (retryLoop T outcomes d 0 retries).2.1 := rfl

theorem retry_result_eq (T : Type) (outcomes : Nat → Except JsError T)
    (retries d : Nat) :
    (retry T outcomes retries d).result =
      (match (retryLoop T outcomes d 0 retries).2.2 with
       | Sum.inl t => RetryResult.success t
       | Sum.inr le => classifyLast T le) := rfl

/-- One-step unfolding of `retryLoop` for a positive iteration budget. -/
theorem retryLoop_succ (T : Type) (outcomes : Nat → Except JsError T)
    (d i rem : Nat) :
    retryLoop T outcomes d i (rem + 1) =
      match outcomes i with
      | Except.ok t => (1, [], Sum.inl t)
      | Except.error e =>
        if isNonRetryable e then (1, [], Sum.inr (some e))
        else if rem = 0 then (1, [], Sum.inr (some e))
        else
          ((retryLoop T outcomes d (i + 1) rem).1 + 1,
           d * 2 ^ i :: (retryLoop T outcomes d (i + 1) rem).2.1,
           match (retryLoop T outcomes d (i + 1) rem).2.2 with
           | Sum.inr none => Sum.inr (some e)
           | x => x) := rfl

/-- If every attempt in the window fails with a retryable error, the loop
runs all remaining iterations, sleeping after each but the last, and
exits with the last error seen. -/
theorem retryLoop_allRetryableFail (T : Type) (outcomes : Nat → Except JsError T)
    (err : Nat → JsError) (d : Nat) :
    ∀ rem i, 0 < rem →
    (∀ k, i ≤ k → k < i + rem →
      outcomes k = Except.error (err k) ∧ isNonRetryable (err k) = false) →
    retryLoop T outcomes d i rem =
      (rem, delaySched d i (rem - 1), Sum.inr (some (err (i + rem - 1)))) := by
  intro rem
  induction rem with
  | zero => intro i h; omega
  | succ m ih =>
    intro i _ h
    have hi := h i (Nat.le_refl i) (by omega)
    match m, ih with
    | 0, _ =>
      simp [retryLoop, hi.1, hi.2, delaySched]
    | m + 1, ih =>
      have hrec := ih (i + 1) (Nat.succ_pos m)
        (fun k hk1 hk2 => h k (by omega) (by omega))
      rw [retryLoop_succ]
      simp only [hi.1]
      rw [if_neg (by simp [hi.2]), if_neg (by omega : ¬(m + 1 = 0)), hrec,
        (by omega : i + 1 + (m + 1) - 1 = i + (m + 1 + 1) - 1)]
      rfl

/-- If the first `j` attempts in the window fail retryably and attempt
`i + j` succeeds, the loop returns that success after `j + 1` calls and
`j` sleeps. -/
theorem retryLoop_prefixFail_success (T : Type) (outcomes : Nat → Except JsError T)
    (err : Nat → JsError) (d : Nat) :
    ∀ j i rem t, j < rem →
    (∀ k, i ≤ k → k < i + j →
      outcomes k = Except.error (err k) ∧ isNonRetryable (err k) = false) →
    outcomes (i + j) = Except.ok t →
    retryLoop T outcomes d i rem = (j + 1, delaySched d i j, Sum.inl t) := by
  intro j
  induction j with
  | zero =>
    intro i rem t hlt _ hok
    match rem, hlt with
    | m + 1, _ =>
      simp only [Nat.add_zero] at hok
      simp [retryLoop, hok, delaySched]
  | succ n ih =>
    intro i rem t hlt h hok
    match rem, hlt with
    | m + 1, hlt =>
      have hi := h i (Nat.le_refl i) (by omega)
      have hm : m ≠ 0 := by omega
      have hrec := ih (i + 1) m t (by omega)
        (fun k hk1 hk2 => h k (by omega) (by omega))
        (by rw [show i + 1 + n = i + (n + 1) by omega]; exact hok)
      simp only [retryLoop, hi.1, hi.2, Bool.false_eq_true, if_false, hm,
        hrec, delaySched]

/-- If every attempt fails with the same error, the loop exits with that
error as the last one seen (whether or not it is retryable). -/
theorem retryLoop_constFail_last (T : Type) (e : JsError) (d : Nat) :
    ∀ rem i, 0 < rem →
    (retryLoop T (fun _ => Except.error e) d i rem).2.2 = Sum.inr (some e) := by
  intro rem
  induction rem with
  | zero => intro i h; omega
  | succ m ih =>
    intro i _
    match m, ih with
    | 0, _ =>
      by_cases hnr : isNonRetryable e = true <;>
        simp [retryLoop, hnr]
    | m + 1, ih =>
      by_cases hnr : isNonRetryable e = true
      · rw [retryLoop_succ]
        simp [hnr]
      · have hrec := ih (i + 1) (Nat.succ_pos m)
        rw [retryLoop_succ]
        simp only []
        rw [if_neg (by simp [Bool.not_eq_true] at hnr; simp [hnr]),
          if_neg (by omega : ¬(m + 1 = 0)), hrec]

/-- A 500-class error never triggers the non-retryable break. -/
theorem isServerErr_not_nonRetryable (e : JsError) :
    isServerErr e = true → isNonRetryable e = false := by
  unfold isServerErr isNonRetryable
  match getStatus e with
  | none => simp
  | some s =>
    by_cases h5 : 500 ≤ s
    · simp only [h5, if_true]
      intro _
      have : ¬(400 ≤ s ∧ s < 500 ∧ s ≠ 429) := by omega
      simp [this]
    · simp [h5]

theorem isNonRetryable_some (e : JsError) (s : Int) (h : getStatus e = some s) :
    isNonRetryable e = (if 400 ≤ s ∧ s < 500 ∧ s ≠ 429 then true else false) := by
  unfold isNonRetryable
  rw [h]

theorem classifyLast_some (T : Type) (e : JsError) :
    classifyLast T (some e) =
      if isRateLimitErr e then RetryResult.classified rateLimitMsg
      else if isUnauthErr e then RetryResult.classified unauthMsg
      else if isServerErr e then RetryResult.classified serverMsg
      else RetryResult.rethrown e := rfl

/-- Concrete error values used as witnesses and counterexamples. -/
def e503 : JsError := ⟨some 503, none, none, "Service Unavailable", emptyS⟩

def e404 : JsError := ⟨some 404, none, none, "Not Found", emptyS⟩

def e499 : JsError := ⟨some 499, none, none, "Client Closed Request", emptyS⟩

def e429err : JsError := ⟨some 429, none, none, "Too Many Requests", emptyS⟩

def e400 : JsError := ⟨some 400, none, none, "INVALID_ARGUMENT: bad prompt", emptyS⟩

/-- C1: for an operation that fails on every attempt with a status-500-class
error, `retry` invokes it exactly `retries` times (source default 3) and no
more, sleeping `baseDelay * 2 ^ i` milliseconds between attempt `i` and
attempt `i + 1`; on the first successful attempt it returns that result
immediately, with no further attempts and no further sleeps. -/
theorem claim_C1_retry_ceiling (T : Type) (outcomes : Nat → Except JsError T)
    (err : Nat → JsError) (retries baseDelay : Nat) :
    (0 < retries →
      (∀ i, i < retries →
        outcomes i = Except.error (err i) ∧ isServerErr (err i) = true) →
      (retry T outcomes retries baseDelay).calls = retries ∧
      (retry T outcomes retries baseDelay).sleeps =
        (List.range (retries - 1)).map (fun k => baseDelay * 2 ^ k)) ∧
    (∀ j t, j < retries → outcomes j = Except.ok t →
      (∀ i, i < j →
        outcomes i = Except.error (err i) ∧ isServerErr (err i) = true) →
      (retry T outcomes retries baseDelay).result = RetryResult.success t ∧
      (retry T outcomes retries baseDelay).calls = j + 1 ∧
      (retry T outcomes retries baseDelay).sleeps =
        (List.range j).map (fun k => baseDelay * 2 ^ k)) := by
  constructor
  · intro hr h
    have hloop := retryLoop_allRetryableFail T outcomes err baseDelay retries 0 hr
      (fun k hk1 hk2 =>
        ⟨(h k (by omega)).1, isServerErr_not_nonRetryable _ (h k (by omega)).2⟩)
    refine ⟨?_, ?_⟩
    · rw [retry_calls_eq, hloop]
    · rw [retry_sleeps_eq, hloop]
      show delaySched baseDelay 0 (retries - 1) = _
      rw [delaySched_eq_map]
      simp
  · intro j t hj hok h
    have hloop := retryLoop_prefixFail_success T outcomes err baseDelay j 0 retries t hj
      (fun k hk1 hk2 =>
        ⟨(h k (by omega)).1, isServerErr_not_nonRetryable _ (h k (by omega)).2⟩)
      (by simpa using hok)
    refine ⟨?_, ?_, ?_⟩
    · rw [retry_result_eq, hloop]
    · rw [retry_calls_eq, hloop]
    · rw [retry_sleeps_eq, hloop]
      show delaySched baseDelay 0 j = _
      rw [delaySched_eq_map]
      simp

/-- C1 witness: an operation failing with 503 on every attempt is invoked
3 times with sleeps 1000 ms then 2000 ms, and one succeeding on the first
attempt is invoked once with no sleep. -/
theorem claim_C1_retry_ceiling_witness :
    ((retry Unit (fun _ => Except.error e503) 3 1000).calls = 3 ∧
      (retry Unit (fun _ => Except.error e503) 3 1000).sleeps = [1000, 2000]) ∧
    ((retry Unit (fun _ => Except.ok ()) 3 1000).result = RetryResult.success () ∧
      (retry Unit (fun _ => Except.ok ()) 3 1000).calls = 1) := by
  constructor
  · have h := (claim_C1_retry_ceiling Unit (fun _ => Except.error e503)
      (fun _ => e503) 3 1000).1 (by omega) (fun i _ => ⟨rfl, by decide⟩)
    refine ⟨h.1, ?_⟩
    rw [h.2]
    decide
  · have h := (claim_C1_retry_ceiling Unit (fun _ => Except.ok ())
      (fun _ => e503) 3 1000).2 0 () (by omega) rfl (fun i hi => by omega)
    exact ⟨h.1, h.2.1⟩

/-- C2 counterexample: status 499 lies outside the claim's non-retryable
interval `[400,499)`, so the claim predicts the error is retried; the
executor instead treats 499 as non-retryable and invokes the operation
exactly once, with no sleep. -/
theorem claim_C2_counterexample :
    getStatus e499 = some 499 ∧
    ¬(400 ≤ (499 : Int) ∧ (499 : Int) < 499) ∧
    (retry Unit (fun _ => Except.error e499) 3 1000).calls = 1 ∧
    (retry Unit (fun _ => Except.error e499) 3 1000).sleeps = [] := by
  exact ⟨by decide, by omega, by decide, by decide⟩

/-- C2 (amended): the executor retries an error iff its extracted status
(`status`, then `response.status`, then `code`, zero and absent skipped)
is absent, equals 429, or lies outside `[400,500)`; a single 4xx-non-429
failure yields exactly one invocation, no sleep, and immediate terminal
classification of that error, while a permanent 429 failure is retried up
to the attempt ceiling and then surfaced as the rate-limit message. -/
theorem claim_C2_no_retry_4xx (T : Type) (e : JsError) (retries baseDelay : Nat)
    (hr : 1 ≤ retries) :
    (isNonRetryable e = false ↔
      getStatus e = none ∨ getStatus e = some 429 ∨
        ∃ s, getStatus e = some s ∧ (s < 400 ∨ 500 ≤ s)) ∧
    (∀ s, getStatus e = some s → 400 ≤ s → s < 500 → s ≠ 429 →
      (retry T (fun _ => Except.error e) retries baseDelay).calls = 1 ∧
      (retry T (fun _ => Except.error e) retries baseDelay).sleeps = [] ∧
      (retry T (fun _ => Except.error e) retries baseDelay).result =
        classifyLast T (some e)) ∧
    (getStatus e = some 429 →
      (retry T (fun _ => Except.error e) retries baseDelay).calls = retries ∧
      (retry T (fun _ => Except.error e) retries baseDelay).sleeps =
        (List.range (retries - 1)).map (fun k => baseDelay * 2 ^ k) ∧
      (retry T (fun _ => Except.error e) retries baseDelay).result =
        RetryResult.classified rateLimitMsg) := by
  refine ⟨?_, ?_, ?_⟩
  · constructor
    · intro hf
      rcases hgs : getStatus e with _ | s
      · exact Or.inl rfl
      · rw [isNonRetryable_some e s hgs] at hf
        by_cases h429 : s = 429
        · exact Or.inr (Or.inl (by rw [h429]))
        · refine Or.inr (Or.inr ⟨s, rfl, ?_⟩)
          by_contra hc
          push_neg at hc
          rw [if_pos ⟨by omega, by omega, h429⟩] at hf
          cases hf
    · intro h
      rcases hgs : getStatus e with _ | s
      · unfold isNonRetryable
        rw [hgs]
      · rw [isNonRetryable_some e s hgs]
        rcases h with h | h | ⟨s', hs', hcond⟩
        · rw [hgs] at h
          cases h
        · rw [hgs, Option.some.injEq] at h
          rw [if_neg (by omega)]
        · rw [hgs, Option.some.injEq] at hs'
          subst hs'
          rw [if_neg (by omega)]
  · intro s hs h1 h2 h3
    have hnr : isNonRetryable e = true := by
      unfold isNonRetryable
      rw [hs]
      simp only [if_pos (by omega : 400 ≤ s ∧ s < 500 ∧ s ≠ 429)]
    obtain ⟨m, rfl⟩ : ∃ m, retries = m + 1 := ⟨retries - 1, by omega⟩
    refine ⟨?_, ?_, ?_⟩
    · rw [retry_calls_eq, retryLoop_succ]
      simp [hnr]
    · rw [retry_sleeps_eq, retryLoop_succ]
      simp [hnr]
    · rw [retry_result_eq, retryLoop_succ]
      simp [hnr]
  · intro h429
    have hnr : isNonRetryable e = false := by
      unfold isNonRetryable
      rw [h429]
      simp only [if_neg (by omega : ¬((400:Int) ≤ 429 ∧ (429:Int) < 500 ∧ (429:Int) ≠ 429))]
    have hloop := retryLoop_allRetryableFail T (fun _ => Except.error e)
      (fun _ => e) baseDelay retries 0 (by omega) (fun k _ _ => ⟨rfl, hnr⟩)
    refine ⟨?_, ?_, ?_⟩
    · rw [retry_calls_eq, hloop]
    · rw [retry_sleeps_eq, hloop]
      show delaySched baseDelay 0 (retries - 1) = _
      rw [delaySched_eq_map]
      simp
    · rw [retry_result_eq, hloop]
      show classifyLast T (some e) = _
      rw [classifyLast_some,
        if_pos (show isRateLimitErr e = true by unfold isRateLimitErr; rw [h429]; simp)]

/-- C2 witness: a 404 failure is invoked once with no sleep; a permanent
429 failure is invoked 3 times. -/
theorem claim_C2_no_retry_4xx_witness :
    (retry Unit (fun _ => Except.error e404) 3 1000).calls = 1 ∧
    (retry Unit (fun _ => Except.error e404) 3 1000).sleeps = [] ∧
    (retry Unit (fun _ => Except.error e429err) 3 1000).calls = 3 := by
  have h404 := (claim_C2_no_retry_4xx Unit e404 3 1000 (by omega)).2.1
    404 (by decide) (by omega) (by omega) (by omega)
  have h429 := (claim_C2_no_retry_4xx Unit e429err 3 1000 (by omega)).2.2 (by decide)
  exact ⟨h404.1, h404.2.1, h429.1⟩

/-- C3 counterexample: a terminal 400-status error carrying the
invalid-argument marker, matching neither the rate-limit nor the
unauthorized check, is rethrown unchanged by the executor rather than
surfaced as a distinguishable bad-request message. -/
theorem claim_C3_counterexample :
    getStatus e400 = some 400 ∧
    strContains (msgOf e400) kInvalidArgument = true ∧
    isRateLimitErr e400 = false ∧ isUnauthErr e400 = false ∧
    (retry Unit (fun _ => Except.error e400) 3 1000).result =
      RetryResult.rethrown e400 := by
  exact ⟨by decide, by decide, by decide, by decide, by decide⟩

/-- C3 (amended): the unified retry's terminal classification has no
bad-request case.  When the loop ends without success and the terminal
error has status 400 or an invalid-argument marker, and it matches
neither the rate-limit, the unauthorized, nor the server-error check,
the original error is rethrown unchanged. -/
theorem claim_C3_bad_request_rethrown (T : Type) (e : JsError)
    (retries baseDelay : Nat) (hr : 1 ≤ retries)
    (_h400 : getStatus e = some 400 ∨ strContains (msgOf e) kInvalidArgument = true)
    (hrl : isRateLimitErr e = false) (hau : isUnauthErr e = false)
    (hsv : isServerErr e = false) :
    (retry T (fun _ => Except.error e) retries baseDelay).result =
      RetryResult.rethrown e := by
  rw [retry_result_eq, retryLoop_constFail_last T e baseDelay retries 0 (by omega)]
  show classifyLast T (some e) = _
  rw [classifyLast_some, if_neg (by simp [hrl]), if_neg (by simp [hau]),
    if_neg (by simp [hsv])]

/-- C3 witness: the amended behaviour at the concrete 400-status error. -/
theorem claim_C3_bad_request_rethrown_witness :
    (retry Unit (fun _ => Except.error e400) 3 1000).result =
      RetryResult.rethrown e400 :=
  claim_C3_bad_request_rethrown Unit e400 3 1000 (by omega)
    (Or.inl (by decide)) (by decide) (by decide) (by decide)

def kSiliconflow : String := "siliconflow"

def kGemini : String := "gemini"

/-- The `UserSettings` fields consumed by the provider adapters
(types.ts lines 58-78); fields used only inside prompt text are not
modelled. -/
structure UserSettingsM where
  aiProvider : String
  geminiApiKey : String
  siliconFlowApiKey : String
  siliconFlowModel : String
deriving DecidableEq

/-- The fields of one SiliconFlow `fetch` response that
`callSiliconFlow` inspects: `ok`, `status`, the `message` field of the
parsed error body (`none` when the body fails to parse), `statusText`,
and `data.choices?.[0]?.message?.content` (`none` when missing). -/
structure SFNetResponse where
  ok : Bool
  status : Int
  errMessage : Option String
  statusText : String
  content : Option String
deriving DecidableEq

def sfMissingKeyMsg : String := "请在设置中填写 SiliconFlow API Key"

/-- The `Error` thrown by `callSiliconFlow` when the key is absent: it
carries only a message — no `status`, `response.status` or `code`. -/
def sfMissingKeyError : JsError := ⟨none, none, none, sfMissingKeyMsg, emptyS⟩

/-- `callSiliconFlow` (geminiService.ts lines 621-653), instrumented with
the number of `fetch` calls it makes (first component).  The API-key
check precedes the `fetch`; a non-ok response is thrown as an object
carrying `status` and `errData.message || response.statusText`; on
success the value is `data.choices?.[0]?.message?.content || ""`.
Prompt/message assembly and the model-name default are not modelled, as
no claim depends on the request body. -/
def callSiliconFlow (settings : UserSettingsM) (net : SFNetResponse) :
    Nat × Except JsError String :=
  if settings.siliconFlowApiKey = emptyS then (0, Except.error sfMissingKeyError)
  else if net.ok = false then
    (1, Except.error ⟨some net.status, none, none,
      jsStrOr (Option.getD net.errMessage emptyS) net.statusText, emptyS⟩)
  else (1, Except.ok (Option.getD net.content emptyS))

/-- One orchestration operation against SiliconFlow as the entry points
perform it, e.g. `analyzeTaskWithGemini` line 810:
`retry(() => callSiliconFlow(messages, settings))` with the source
default retry parameters. -/
def sfOperationTrace (settings : UserSettingsM) (net : Nat → SFNetResponse) :
    RetryTrace String :=
  retry String (fun i => (callSiliconFlow settings (net i)).2)
    defaultRetries defaultBaseDelay

/-- Total number of network (`fetch`) calls made across all attempts of
`sfOperationTrace`. -/
def sfNetworkCalls (settings : UserSettingsM) (net : Nat → SFNetResponse) : Nat :=
  ((List.range (sfOperationTrace settings net).calls).map
    (fun i => (callSiliconFlow settings (net i)).1)).sum

/-- Settings with SiliconFlow selected and an empty API key. -/
def emptyKeySettings : UserSettingsM := ⟨kSiliconflow, emptyS, emptyS, emptyS⟩

/-- A healthy network response, irrelevant when the key check fires. -/
def dummyNet : SFNetResponse := ⟨true, 200, none, "OK", some "hi"⟩

/-- C4 counterexample: with SiliconFlow selected and an empty key, the
missing-credentials failure is NOT exempt from the retry loop — the
wrapped operation is invoked 3 times with backoff sleeps 1000 ms and
2000 ms, because the thrown `Error` carries no status code. -/
theorem claim_C4_counterexample :
    (sfOperationTrace emptyKeySettings (fun _ => dummyNet)).calls = 3 ∧
    (sfOperationTrace emptyKeySettings (fun _ => dummyNet)).sleeps = [1000, 2000] := by
  exact ⟨by decide, by decide⟩

/-- C4 (amended): with `aiProvider = "siliconflow"` and an empty
`siliconFlowApiKey`, an orchestration operation makes zero network
calls, and the missing-credentials error is what propagates to the
caller (rethrown unchanged by the terminal classification); the failure
is, however, passed through the retry loop: the key check is re-run
`defaultRetries` (3) times with backoff sleeps 1000 ms and 2000 ms,
since the error carries no status code. -/
theorem claim_C4_missing_credentials (settings : UserSettingsM)
    (net : Nat → SFNetResponse)
    (_hp : settings.aiProvider = kSiliconflow)
    (hk : settings.siliconFlowApiKey = emptyS) :
    sfNetworkCalls settings net = 0 ∧
    (sfOperationTrace settings net).result = RetryResult.rethrown sfMissingKeyError ∧
    (sfOperationTrace settings net).calls = defaultRetries ∧
    (sfOperationTrace settings net).sleeps = [1000, 2000] := by
  have hcall : ∀ r, callSiliconFlow settings r = (0, Except.error sfMissingKeyError) := by
    intro r
    unfold callSiliconFlow
    rw [if_pos hk]
  have houtc : (fun i => (callSiliconFlow settings (net i)).2) =
      (fun _ => Except.error sfMissingKeyError) := by
    funext i
    rw [hcall]
  have htrace : sfOperationTrace settings net =
      retry String (fun _ => Except.error sfMissingKeyError)
        defaultRetries defaultBaseDelay := by
    unfold sfOperationTrace
    rw [houtc]
  refine ⟨?_, ?_, ?_, ?_⟩
  · unfold sfNetworkCalls
    rw [htrace]
    have hc : (retry String (fun _ => Except.error sfMissingKeyError)
        defaultRetries defaultBaseDelay).calls = 3 := by decide
    rw [hc]
    simp [hcall]
  · rw [htrace]
    decide
  · rw [htrace]
    decide
  · rw [htrace]
    decide

/-- C4 witness at the concrete empty-key settings. -/
theorem claim_C4_missing_credentials_witness :
    sfNetworkCalls emptyKeySettings (fun _ => dummyNet) = 0 ∧
    (sfOperationTrace emptyKeySettings (fun _ => dummyNet)).result =
      RetryResult.rethrown sfMissingKeyError :=
  ⟨(claim_C4_missing_credentials emptyKeySettings (fun _ => dummyNet) rfl rfl).1,
   (claim_C4_missing_credentials emptyKeySettings (fun _ => dummyNet) rfl rfl).2.1⟩

def geminiMissingKeyMsg : String := "未检测到 Gemini API Key。"

/-- Thrown by `getGeminiClient` when both key sources are absent. -/
def geminiMissingKeyError : JsError := ⟨none, none, none, geminiMissingKeyMsg, emptyS⟩

/-- `getGeminiClient` key resolution (geminiService.ts lines 656-660):
`apiKey || process.env.API_KEY`, throwing when both are empty, composed
with a single `generateContent` ping whose outcome is the oracle
`gem`. -/
def geminiPing (geminiApiKey envApiKey : String) (gem : Except JsError String) :
    Except JsError String :=
  if jsStrOr geminiApiKey envApiKey = emptyS then Except.error geminiMissingKeyError
  else gem

/-- The `try` body of `testAIConnection` (lines 663-683): one minimal
completion call through the adapter selected by `aiProvider` (the
SiliconFlow branch passes `jsonMode = false`, which only affects the
request body, not modelled). -/
def testConnBody (settings : UserSettingsM) (envApiKey : String)
    (sfNet : SFNetResponse) (gem : Except JsError String) : Except JsError String :=
  if settings.aiProvider = kSiliconflow then (callSiliconFlow settings sfNet).2
  else geminiPing settings.geminiApiKey envApiKey gem

/-- `testAIConnection` returns `true` on success of the ping and `false`
on any failure; the `catch` only logs the error. -/
def testAIConnection (settings : UserSettingsM) (envApiKey : String)
    (sfNet : SFNetResponse) (gem : Except JsError String) : Bool :=
  match testConnBody settings envApiKey sfNet gem with
  | Except.ok _ => true
  | Except.error _ => false

/-- C8: `testAIConnection` never throws — for every configuration and
every provider outcome it returns `true` exactly when the single ping
through the adapter selected by `aiProvider` succeeds, and `false`
exactly when that ping fails (the underlying error being swallowed). -/
theorem claim_C8_test_connection (settings : UserSettingsM) (envApiKey : String)
    (sfNet : SFNetResponse) (gem : Except JsError String) :
    (testAIConnection settings envApiKey sfNet gem = true ↔
      ∃ txt, testConnBody settings envApiKey sfNet gem = Except.ok txt) ∧
    (testAIConnection settings envApiKey sfNet gem = false ↔
      ∃ err, testConnBody settings envApiKey sfNet gem = Except.error err) ∧
    (settings.aiProvider = kSiliconflow →
      testConnBody settings envApiKey sfNet gem = (callSiliconFlow settings sfNet).2) ∧
    (settings.aiProvider ≠ kSiliconflow →
      testConnBody settings envApiKey sfNet gem =
        geminiPing settings.geminiApiKey envApiKey gem) := by
  refine ⟨?_, ?_, ?_, ?_⟩
  · cases h : testConnBody settings envApiKey sfNet gem with
    | ok t => simp [testAIConnection, h]
    | error err => simp [testAIConnection, h]
  · cases h : testConnBody settings envApiKey sfNet gem with
    | ok t => simp [testAIConnection, h]
    | error err => simp [testAIConnection, h]
  · intro hp
    unfold testConnBody
    rw [if_pos hp]
  · intro hp
    unfold testConnBody
    rw [if_neg hp]

def kHello : String := "hi there"

def kTestKey : String := "sk-test"

/-- Settings with the Gemini provider selected and a key present. -/
def geminiSettings : UserSettingsM := ⟨kGemini, kTestKey, emptyS, emptyS⟩

/-- C8 witness: a failing SiliconFlow ping (empty key) yields `false`;
a succeeding Gemini ping yields `true`. -/
theorem claim_C8_test_connection_witness :
    testAIConnection emptyKeySettings emptyS dummyNet (Except.ok emptyS) = false ∧
    testAIConnection geminiSettings emptyS dummyNet (Except.ok kHello) = true :=
  ⟨(claim_C8_test_connection emptyKeySettings emptyS dummyNet (Except.ok emptyS)).2.1.mpr
     ⟨sfMissingKeyError, rfl⟩,
   (claim_C8_test_connection geminiSettings emptyS dummyNet (Except.ok kHello)).1.mpr
     ⟨kHello, rfl⟩⟩

/-- The fixed default question set of the SiliconFlow branch of
`generateAssessmentQuestions` (geminiService.ts line 722). -/
def defaultQuestions : List String := ["必须今天做吗？", "影响核心目标吗？", "后果严重吗？"]

/-- `return data.questions || [...]` of the SiliconFlow branch of
`generateAssessmentQuestions` (line 722), applied to the parsed
`questions` field.  A present array — empty or not — is truthy in JS and
is returned as-is; only an absent field falls back to the default. -/
def sfQuestionsResult (questions : Option (List String)) : List String :=
  match questions with
  | some qs => qs
  | none => defaultQuestions

/-- `return data.questions || []` of the Gemini branch (line 746). -/
def geminiQuestionsResult (questions : Option (List String)) : List String :=
  match questions with
  | some qs => qs
  | none => []

/-- C5 counterexample: a parsed response whose `questions` array is
present but empty is returned as the empty list by the SiliconFlow
branch (an empty JS array is truthy), and an absent `questions` field
yields the empty list — not the default 3-question set — in the Gemini
branch. -/
theorem claim_C5_counterexample :
    sfQuestionsResult (some []) = [] ∧
    geminiQuestionsResult none = [] ∧
    defaultQuestions.length = 3 ∧
    defaultQuestions ≠ [] := by
  exact ⟨rfl, rfl, rfl, by decide⟩

/-- C5 (amended): only the SiliconFlow branch of single-task question
generation falls back to the fixed default 3-question set, and only when
the parsed `questions` field is absent; a present-but-empty array is
returned as-is, and the Gemini branch yields the empty list when the
field is absent. -/
theorem claim_C5_default_questions :
    sfQuestionsResult none = defaultQuestions ∧
    (∀ qs, sfQuestionsResult (some qs) = qs) ∧
    geminiQuestionsResult none = [] ∧
    (∀ qs, geminiQuestionsResult (some qs) = qs) ∧
    defaultQuestions.length = 3 :=
  ⟨rfl, fun _ => rfl, rfl, fun _ => rfl, rfl⟩

/-- The post-`JSON.parse` value inspected by `analyzeTaskWithGemini`:
each expected field may be absent. -/
structure ParsedAnalysisData where
  quadrantName : Option String
  isImportant : Option Bool
  isUrgent : Option Bool
  reasoning : Option String
  steps : Option (List String)
  advice : Option String
deriving DecidableEq

/-- The runtime shape of the value `analyzeTaskWithGemini` returns: the
TypeScript `as QuadrantType` cast does not exist at runtime, so
`quadrant` is whatever string (or absent value) the provider sent. -/
structure RTAnalysisResult where
  quadrant : Option String
  isImportant : Option Bool
  isUrgent : Option Bool
  reasoning : Option String
  steps : List String
  advice : Option String
deriving DecidableEq

/-- The result construction shared by both provider branches of
`analyzeTaskWithGemini` (geminiService.ts lines 821-828 and 857-864):
a plain passthrough with `steps: data.steps || []`. -/
def analyzeTaskResult (data : ParsedAnalysisData) : RTAnalysisResult :=
  { quadrant := data.quadrantName
    isImportant := data.isImportant
    isUrgent := data.isUrgent
    reasoning := data.reasoning
    steps := Option.getD data.steps []
    advice := data.advice }

def kDo : String := "Do"

def kPlan : String := "Plan"

def kDelegate : String := "Delegate"

def kEliminate : String := "Eliminate"

/-- The closed quadrant enum (types.ts lines 2-7). -/
def quadrantEnum : List String := [kDo, kPlan, kDelegate, kEliminate]

def kBanana : String := "Banana"

/-- A well-formed JSON object carrying an unrecognized quadrant string
and no other field. -/
def bananaData : ParsedAnalysisData := ⟨some kBanana, none, none, none, none, none⟩

/-- C6 counterexample: a parsed response with every required field
missing and an unrecognized quadrant string is not rejected — the result
carries `quadrant = some "Banana"` (not one of the 4 enum values), the
missing fields pass through as absent, and `steps` is silently defaulted
to `[]`. -/
theorem claim_C6_counterexample :
    analyzeTaskResult bananaData = ⟨some kBanana, none, none, none, [], none⟩ ∧
    ¬kBanana ∈ quadrantEnum := by
  exact ⟨rfl, by decide⟩

/-- C6 (amended): the client-side classification parser validates
nothing: for every parsed response the result construction succeeds,
passing each field through unchanged — a missing required field stays
absent rather than raising a parse failure, `steps` is silently
defaulted to `[]` when absent, and the quadrant string is carried into
the result without an enum-membership check, so results may carry
strings outside the 4-value enum.  (The Gemini request's declared
response schema constrains the shape provider-side only.) -/
theorem claim_C6_no_validation (data : ParsedAnalysisData) :
    (analyzeTaskResult data).quadrant = data.quadrantName ∧
    (analyzeTaskResult data).isImportant = data.isImportant ∧
    (analyzeTaskResult data).isUrgent = data.isUrgent ∧
    (analyzeTaskResult data).reasoning = data.reasoning ∧
    (analyzeTaskResult data).steps = Option.getD data.steps [] ∧
    (analyzeTaskResult data).advice = data.advice ∧
    (∀ q, data.quadrantName = some q → ¬q ∈ quadrantEnum →
      (analyzeTaskResult data).quadrant = some q) :=
  ⟨rfl, rfl, rfl, rfl, rfl, rfl, fun _ hq _ => hq⟩

/-- C6 witness: the amended passthrough at the unrecognized quadrant. -/
theorem claim_C6_no_validation_witness :
    (analyzeTaskResult bananaData).quadrant = some kBanana :=
  (claim_C6_no_validation bananaData).2.2.2.2.2.2 kBanana rfl (by decide)

def kCn : String := "cn"

def kEn : String := "en"

def kZh : String := "zh"

/-- `BilingualText` (types.ts lines 19-22). -/
structure BilingualText where
  cn : String
  en : String
deriving DecidableEq

/-- The argument type of `getLocalizedContent`:
`BilingualText | string | null | undefined`. -/
inductive LocalizedContent where
  | nullish : LocalizedContent
  | str : String → LocalizedContent
  | obj : BilingualText → LocalizedContent
deriving DecidableEq

/-- JS falsiness of the argument: `null`/`undefined` and `""` are falsy;
objects are always truthy. -/
def contentFalsy : LocalizedContent → Bool
  | LocalizedContent.nullish => true
  | LocalizedContent.str s => if s = emptyS then true else false
  | LocalizedContent.obj _ => false

/-- Dynamic key access `content[language]` on a `{cn, en}` object: only
the two declared keys exist; any other key reads `undefined`. -/
def bilingualIndex (b : BilingualText) (language : String) : Option String :=
  if language = kCn then some b.cn
  else if language = kEn then some b.en
  else none

/-- `getLocalizedContent` (part_005 lines 334-338):
`if (!content) return ""`, bare strings returned as-is, objects resolved
as `content[state.language] || content['cn'] || ""`. -/
def getLocalizedContent (language : String) (content : LocalizedContent) : String :=
  if contentFalsy content then emptyS
  else
    match content with
    | LocalizedContent.nullish => emptyS
    | LocalizedContent.str s => s
    | LocalizedContent.obj b =>
      jsStrOr (Option.getD (bilingualIndex b language) emptyS) (jsStrOr b.cn emptyS)

def cnJia : String := "甲"

def enB : String := "B"

/-- C7 counterexample: resolving `{cn: "甲", en: ""}` for language
`"en"` returns `"甲"` — the `cn` value, not the `en` value — because the
empty string is falsy under `||`. -/
theorem claim_C7_counterexample :
    getLocalizedContent kEn (LocalizedContent.obj ⟨cnJia, emptyS⟩) = cnJia ∧
    (⟨cnJia, emptyS⟩ : BilingualText).en ≠ cnJia := by
  exact ⟨by decide, by decide⟩

/-- C7 (amended): resolving a bare string returns it unchanged for every
language preference; resolving a `{cn, en}` object for language `"en"`
returns the `en` value when that value is non-empty (an empty `en` falls
back to `cn`); and resolving for a language key that is not a key of the
object (e.g. the app's `"zh"`) returns the `cn` value. -/
theorem claim_C7_bilingual_fallback (b : BilingualText) (s language : String) :
    getLocalizedContent language (LocalizedContent.str s) = s ∧
    (b.en ≠ emptyS → getLocalizedContent kEn (LocalizedContent.obj b) = b.en) ∧
    (language ≠ kCn → language ≠ kEn →
      getLocalizedContent language (LocalizedContent.obj b) = b.cn) := by
  refine ⟨?_, ?_, ?_⟩
  · unfold getLocalizedContent
    by_cases hs : s = emptyS
    · rw [if_pos (show contentFalsy (LocalizedContent.str s) = true by
        simp [contentFalsy, hs]), hs]
    · rw [if_neg (show ¬contentFalsy (LocalizedContent.str s) = true by
        simp [contentFalsy, hs])]
  · intro hen
    unfold getLocalizedContent
    rw [if_neg (show ¬contentFalsy (LocalizedContent.obj b) = true by
      simp [contentFalsy])]
    show jsStrOr (Option.getD (bilingualIndex b kEn) emptyS)
      (jsStrOr b.cn emptyS) = b.en
    unfold bilingualIndex
    rw [if_neg (by decide), if_pos rfl]
    show jsStrOr b.en (jsStrOr b.cn emptyS) = b.en
    unfold jsStrOr
    rw [if_neg hen]
  · intro hcn hen
    unfold getLocalizedContent
    rw [if_neg (show ¬contentFalsy (LocalizedContent.obj b) = true by
      simp [contentFalsy])]
    show jsStrOr (Option.getD (bilingualIndex b language) emptyS)
      (jsStrOr b.cn emptyS) = b.cn
    unfold bilingualIndex
    rw [if_neg hcn, if_neg hen]
    show jsStrOr emptyS (jsStrOr b.cn emptyS) = b.cn
    unfold jsStrOr
    by_cases hbc : b.cn = emptyS
    · rw [if_pos rfl, if_pos hbc, hbc]
    · rw [if_pos rfl, if_neg hbc]

/-- C7 witness: concrete resolutions of a bare string and of
`{cn: "甲", en: "B"}` for languages `"en"` and `"zh"`. -/
theorem claim_C7_bilingual_fallback_witness :
    getLocalizedContent kZh (LocalizedContent.str kHello) = kHello ∧
    getLocalizedContent kEn (LocalizedContent.obj ⟨cnJia, enB⟩) = enB ∧
    getLocalizedContent kZh (LocalizedContent.obj ⟨cnJia, enB⟩) = cnJia := by
  have h := claim_C7_bilingual_fallback ⟨cnJia, enB⟩ kHello kZh
  exact ⟨h.1, h.2.1 (by decide), h.2.2 (by decide) (by decide)⟩

/-- The newline character on which the batch input is split. -/
def lineSepChar : Char := Char.ofNat 10

/-- JS `split('\n')` modelled on the character list: splits at every
newline, keeping empty segments (so `split` never yields an empty
list). -/
def splitNewlines : List Char → List (List Char)
  | [] => [[]]
  | c :: cs =>
    if c = lineSepChar then [] :: splitNewlines cs
    else
      match splitNewlines cs with
      | [] => [[c]]
      | l :: ls => (c :: l) :: ls

/-- JS `trim()` modelled on the character list: strip whitespace from
both ends. -/
def trimChars (l : List Char) : List Char :=
  ((l.dropWhile Char.isWhitespace).reverse.dropWhile Char.isWhitespace).reverse

/-- `batchRawInput.split('\n').map(l => l.trim()).filter(l => l.length > 0)`
(part_005 line 731). -/
def batchLines (batchRawInput : String) : List String :=
  (((splitNewlines batchRawInput.toList).map trimChars).filter
    (fun l => decide (0 < l.length))).map (fun l => String.mk l)

/-- Outcome of `handleBatchInputSubmit` (part_005 lines 730-764) up to
the point where the network pipeline would start: one of the two guard
errors, or proceeding to build `batchTasks` and invoke
`generateBatchAssessmentQuestions` on the given task names. -/
inductive BatchSubmitOutcome where
  | errEmptyInput : BatchSubmitOutcome
  | errTooMany : BatchSubmitOutcome
  | proceed : List String → BatchSubmitOutcome
deriving DecidableEq

/-- The guard sequence of `handleBatchInputSubmit` (lines 731-739):
empty check first, then the 20-task ceiling, then proceed. -/
def handleBatchInputSubmit (batchRawInput : String) : BatchSubmitOutcome :=
  if (batchLines batchRawInput).length = 0 then BatchSubmitOutcome.errEmptyInput
  else if 20 < (batchLines batchRawInput).length then BatchSubmitOutcome.errTooMany
  else BatchSubmitOutcome.proceed (batchLines batchRawInput)

/-- C9: a submission parsing to more than 20 tasks fails with the
size-limit error before any prompt is built or network call issued
(the `proceed` stage is never reached); a submission of 20 or fewer
tasks never triggers the size guard, and with at least one task it
proceeds to question generation. -/
theorem claim_C9_batch_size_guard (input : String) :
    (20 < (batchLines input).length →
      handleBatchInputSubmit input = BatchSubmitOutcome.errTooMany) ∧
    ((batchLines input).length ≤ 20 →
      handleBatchInputSubmit input ≠ BatchSubmitOutcome.errTooMany) ∧
    (0 < (batchLines input).length → (batchLines input).length ≤ 20 →
      handleBatchInputSubmit input =
        BatchSubmitOutcome.proceed (batchLines input)) := by
  refine ⟨?_, ?_, ?_⟩
  · intro h
    unfold handleBatchInputSubmit
    rw [if_neg (by omega), if_pos h]
  · intro h
    unfold handleBatchInputSubmit
    by_cases h0 : (batchLines input).length = 0
    · rw [if_pos h0]
      intro hc
      exact BatchSubmitOutcome.noConfusion hc
    · rw [if_neg h0, if_neg (by omega)]
      intro hc
      exact BatchSubmitOutcome.noConfusion hc
  · intro h1 h2
    unfold handleBatchInputSubmit
    rw [if_neg (by omega), if_neg (by omega)]

/-- A raw batch input with 21 non-empty lines. -/
def input21 : String :=
  "t1\nt2\nt3\nt4\nt5\nt6\nt7\nt8\nt9\nt10\nt11\nt12\nt13\nt14\nt15\nt16\nt17\nt18\nt19\nt20\nt21"

/-- A raw batch input with 2 non-empty lines (one needing a trim). -/
def input2 : String := "write report\n  review code  "

/-- C9 witness: 21 lines hit the size guard, 2 lines proceed. -/
theorem claim_C9_batch_size_guard_witness :
    handleBatchInputSubmit input21 = BatchSubmitOutcome.errTooMany ∧
    handleBatchInputSubmit input2 =
      BatchSubmitOutcome.proceed (batchLines input2) :=
  ⟨(claim_C9_batch_size_guard input21).1 (by decide),
   (claim_C9_batch_size_guard input2).2.2 (by decide) (by decide)⟩

def kUnknownTask : String := "Unknown Task"

/-- `BatchTaskInput` (types.ts lines 43-47). -/
structure BatchTaskInput where
  id : String
  name : String
  estimatedTime : String
deriving DecidableEq

/-- One `BatchAnalysisResult` as `handleBatchReviewSave` consumes it at
runtime: `quadrant` is the provider's string (the TypeScript enum type
is erased), and the bilingual-or-string `reasoning`/`advice` payloads
are passed through opaquely. -/
structure BatchAnalysisResult where
  taskId : String
  quadrant : String
  reasoning : LocalizedContent
  advice : LocalizedContent
deriving DecidableEq

/-- The fields of a `Task` that `handleBatchReviewSave` computes
(part_005 lines 799-815); the random UUID and `createdAt` timestamp are
not modelled. -/
structure TaskM where
  name : String
  estimatedTime : String
  quadrant : String
  isImportant : Bool
  isUrgent : Bool
  reasoning : LocalizedContent
  steps : List String
  advice : LocalizedContent
deriving DecidableEq

/-- Materialization of one batch result inside `handleBatchReviewSave`
(lines 800-814). -/
def materializeBatchTask (batchInputs : List BatchTaskInput)
    (batchCommonDate : String) (res : BatchAnalysisResult) : TaskM :=
  let originalInput := batchInputs.find? (fun t => t.id == res.taskId)
  { name :=
      match originalInput with
      | some t => t.name
      | none => kUnknownTask
    estimatedTime :=
      match originalInput with
      | some t => t.estimatedTime
      | none => batchCommonDate
    quadrant := res.quadrant
    isImportant := res.quadrant == kDo || res.quadrant == kPlan
    isUrgent := res.quadrant == kDo || res.quadrant == kDelegate
    reasoning := res.reasoning
    steps := []
    advice := res.advice }

/-- `handleBatchReviewSave`: the list of tasks appended to state. -/
def handleBatchReviewSave (batchInputs : List BatchTaskInput)
    (batchCommonDate : String) (batchResults : List BatchAnalysisResult) :
    List TaskM :=
  batchResults.map (materializeBatchTask batchInputs batchCommonDate)

/-- C10: every task materialized by `handleBatchReviewSave` satisfies
the Eisenhower consistency invariant by construction — `isImportant`
holds iff the stored quadrant is Do or Plan, and `isUrgent` holds iff it
is Do or Delegate — with `steps` fixed to the empty list; by contrast
the single-task path passes the model's booleans through without any
consistency check. -/
theorem claim_C10_batch_consistency (batchInputs : List BatchTaskInput)
    (batchCommonDate : String) (batchResults : List BatchAnalysisResult)
    (t : TaskM)
    (ht : t ∈ handleBatchReviewSave batchInputs batchCommonDate batchResults) :
    (t.isImportant = true ↔ (t.quadrant = kDo ∨ t.quadrant = kPlan)) ∧
    (t.isUrgent = true ↔ (t.quadrant = kDo ∨ t.quadrant = kDelegate)) ∧
    t.steps = [] ∧
    (∀ d : ParsedAnalysisData,
      (analyzeTaskResult d).isImportant = d.isImportant ∧
      (analyzeTaskResult d).isUrgent = d.isUrgent) := by
  obtain ⟨res, hres, rfl⟩ := List.mem_map.mp ht
  refine ⟨?_, ?_, rfl, fun d => ⟨rfl, rfl⟩⟩
  · show (res.quadrant == kDo || res.quadrant == kPlan) = true ↔ _
    simp [materializeBatchTask]
  · show (res.quadrant == kDo || res.quadrant == kDelegate) = true ↔ _
    simp [materializeBatchTask]

/-- A concrete batch input/result pair for the C10 witness. -/
def batchInput1 : BatchTaskInput := ⟨"tmp-1", "write report", "2025-01-10"⟩

def batchResult1 : BatchAnalysisResult :=
  ⟨"tmp-1", kDo, LocalizedContent.str emptyS, LocalizedContent.str emptyS⟩

/-- C10 witness at a concrete one-element batch. -/
theorem claim_C10_batch_consistency_witness :
    (materializeBatchTask [batchInput1] emptyS batchResult1).steps = [] ∧
    (materializeBatchTask [batchInput1] emptyS batchResult1).isImportant = true := by
  have h := claim_C10_batch_consistency [batchInput1] emptyS [batchResult1]
    (materializeBatchTask [batchInput1] emptyS batchResult1) (List.Mem.head _)
  exact ⟨h.2.2.1, h.1.mpr (Or.inl (by decide))⟩

end TaskEasy
